import Mathlib

/-!
Shallow embedding of the mydailyhug-backend HTTP handlers
(src/unnamed/part_000) in Lean 4, with theorems settling the frozen
claims about the user-provisioning and status-transition workflow.

Request-body fields and HTTP headers are modelled as `Option String`
(`none` = absent, `some s` = present with value `s`); JavaScript
truthiness of such a value (`!x` checks) is `jsTruthy`.  Firestore field
values that the handlers write are modelled by `FieldVal` (strings,
`Timestamp.now()` instants, and the `FieldValue.serverTimestamp()`
sentinel).  Each handler is a pure function from its inputs (the
identity-provider store, the request body, the clock, the random draws)
to its HTTP response together with the list of external writes it
issues, in program order.
-/

/-- JavaScript truthiness of an optional string request field or header:
absent (`undefined`) and the empty string are falsy. -/
def jsTruthy : Option String → Bool
  | none => false
  | some s => s ≠ ""

/-- JavaScript evaluation of reading a possibly-absent document field:
`null`, `undefined`, or a string. -/
inductive JsVal where
  | jsNull
  | jsUndefined
  | jsStr (s : String)
deriving DecidableEq, Repr

/-- Value written to a Firestore profile field by these handlers: a string,
a `Timestamp.now()` instant (the clock modelled as `Nat`), or the
`FieldValue.serverTimestamp()` sentinel. -/
inductive FieldVal where
  | str (s : String)
  | ts (t : Nat)
  | serverTs
deriving DecidableEq, Repr

/-- One `db.collection('users').doc(docId).set(fields, {merge})` call:
the document id, the fields of the object literal in source order, and
the merge flag. -/
structure ProfileWrite where
  docId : String
  fields : List (String × FieldVal)
  merge : Bool
deriving DecidableEq, Repr

/-- A user record of the external identity provider
(`admin.auth()`): uid, email and the provider-side display name
(absent unless previously set). -/
structure AuthUser where
  uid : String
  email : String
  displayName : Option String
deriving DecidableEq, Repr

/-- Identity lookup `admin.auth().getUserByEmail(email)`: the first
record of the store with that email, or a user-not-found miss. -/
def getUserByEmail (auth : List AuthUser) (email : String) : Option AuthUser :=
  auth.find? (fun u => u.email == email)

/-! ## Static-key guard (authenticateApiKey, part_000 lines 100-122) -/

/-- Outcome of the static-key guard: the HTTP error it responds with, or
control passing to the guarded handler (`next()`). -/
inductive GuardOutcome where
  | unauthorized
  | configError
  | forbidden
  | handlerRuns
deriving DecidableEq, Repr

/-- The static-key guard, part_000 lines 100-122: `provided` is the
`X-API-Key` request header, `expected` the `GHL_API_KEY` environment
value (`none` = unconfigured).  `!providedKey` rejects with 401,
`!expectedKey` with 500, `providedKey !== expectedKey` with 403;
otherwise `next()` runs the handler. -/
def authenticateApiKey (provided expected : Option String) : GuardOutcome :=
  if !(jsTruthy provided) then .unauthorized
  else if !(jsTruthy expected) then .configError
  else if provided ≠ expected then .forbidden
  else .handlerRuns

/-! ## Claims writes (setCustomUserClaims) -/

/-- A custom-claims map, as the object literals passed to
`setCustomUserClaims` in this codebase: string keys, boolean values. -/
abbrev ClaimsMap := List (String × Bool)

/-- Per-identity custom-claims state of the identity provider. -/
def ClaimsState := String → ClaimsMap

/-- Firebase `admin.auth().setCustomUserClaims(uid, claims)` as the
spec's interface describes it: the identity's full custom-claims map is
replaced by `claims`; no pre-existing claim survives. -/
def setCustomUserClaims (st : ClaimsState) (uid : String) (claims : ClaimsMap) : ClaimsState :=
  fun u => if u = uid then claims else st u

/-- Replay a handler's claims writes, in order, against a prior
claims state. -/
def applyClaimsWrites (ws : List (String × ClaimsMap)) (st : ClaimsState) : ClaimsState :=
  ws.foldl (fun acc w => setCustomUserClaims acc w.1 w.2) st

/-! ## Notification dispatcher (part_000 lines 130-231) -/

/-- One document of the `users` collection as the dispatcher reads it:
document id, the `userType` field, and the evaluation of
`doc.data().fcmToken` (`jsUndefined` when the field is absent,
`jsNull` when stored null, `jsStr` when a token string). -/
structure UserDoc where
  id : String
  userType : String
  fcmToken : JsVal
deriving DecidableEq, Repr

/-- Body of a send-notification request, after the destructuring
`{title, body, targetType = 'all', targetUsers = []}`; `none` models an
absent JSON field. -/
structure NotifBody where
  title : Option String
  body : Option String
  targetType : Option String
  targetUsers : List String
deriving DecidableEq, Repr

/-- Response of the send-notification handler: the 400 validation
error, the business-level no-recipients response, or the success
response (whose per-token outcomes depend on the external messaging
gateway; only the count of attempted sends is modelled). -/
inductive NotifResponse where
  | badRequest (err : String)
  | noRecipients (err : String)
  | sent (total : Nat)
deriving DecidableEq, Repr

/-- External effects of the send-notification handler, in program
order: the `users` document ids read one by one, whether the `users`
collection was queried, and the token values passed to
`admin.messaging().send`. -/
structure NotifEffects where
  docReads : List String
  queriedCollection : Bool
  sendTokens : List JsVal
deriving DecidableEq, Repr

/-- Token collection of the `targetUsers` branch, part_000 lines
145-153: each listed user id is read; a missing document contributes
`null`, an existing one the evaluation of its `fcmToken` field; then
`filter(token => token !== null)`. -/
def collectTokensTargetUsers (store : List UserDoc) (targetUsers : List String) : List JsVal :=
  (targetUsers.map (fun userId =>
      match store.find? (fun d => d.id == userId) with
      | some d => d.fcmToken
      | none => JsVal.jsNull)).filter
    (fun token => !(token == JsVal.jsNull))

/-- Token collection of the `targetType` branch, part_000 lines
154-166: the `users` collection, filtered by `userType` unless the
target type is `all`, mapped to `fcmToken` and filtered by
`token !== null && token !== undefined`. -/
def collectTokensTargetType (store : List UserDoc) (targetType : String) : List JsVal :=
  ((if targetType == "all" then store
    else store.filter (fun d => d.userType == targetType)).map
      (fun d => d.fcmToken)).filter
    (fun token => !(token == JsVal.jsNull) && !(token == JsVal.jsUndefined))

/-- The send-notification handler, part_000 lines 130-231: validates
`title`/`body`, collects tokens by the `targetUsers` or `targetType`
branch, answers no-recipients when none, otherwise attempts one send
per token. -/
def sendNotification (store : List UserDoc) (b : NotifBody) : NotifResponse × NotifEffects :=
  if !(jsTruthy b.title) || !(jsTruthy b.body) then
    (.badRequest "Title and body are required", ⟨[], false, []⟩)
  else
    if b.targetUsers.length > 0 then
      let tokens := collectTokensTargetUsers store b.targetUsers
      if tokens.length == 0 then
        (.noRecipients "No users have enabled notifications for the specified criteria",
          ⟨b.targetUsers, false, []⟩)
      else
        (.sent tokens.length, ⟨b.targetUsers, false, tokens⟩)
    else
      let tokens := collectTokensTargetType store (b.targetType.getD "all")
      if tokens.length == 0 then
        (.noRecipients "No users have enabled notifications for the specified criteria",
          ⟨[], true, []⟩)
      else
        (.sent tokens.length, ⟨[], true, tokens⟩)

/-! ## Temporary-password generation (part_000 lines 446, 590, 661, 287) -/

/-- JavaScript `s.slice(-n)` on a string: the last `n` characters, or
the whole string when it is shorter (`Nat` subtraction saturates
exactly like the clamp to index 0). -/
def jsSliceNeg (n : Nat) (s : String) : String :=
  String.mk (s.toList.drop (s.toList.length - n))

/-- The generated temporary password when the caller supplied none:
`Math.random().toString(36).slice(-8) + Math.random().toString(36).slice(-4)`,
as a function of the two strings the random draws render to. -/
def generatedPassword (r1 r2 : String) : String :=
  jsSliceNeg 8 r1 ++ jsSliceNeg 4 r2

/-- The thirty-six characters of a base-36 digit as JavaScript
`Number.prototype.toString(36)` prints them. -/
def base36Digits : List Char :=
  "0123456789abcdefghijklmnopqrstuvwxyz".toList

/-- Whether a character is a base-36 digit. -/
def isBase36Digit (c : Char) : Bool :=
  base36Digits.contains c

/-- The possible outputs of JavaScript `Number.prototype.toString(36)`
on a value of `[0, 1)`, the range of `Math.random()`: the string "0"
for zero, otherwise "0." followed by at least one base-36 digit of the
fractional expansion. -/
def validToString36 (s : String) : Prop :=
  s = "0" ∨ ∃ ds : List Char, ds ≠ [] ∧ (∀ c ∈ ds, isBase36Digit c = true) ∧
    s = "0." ++ String.mk ds

/-! ## Provisioning workflow (grant-admin 257-373, create-user 407-531,
ghl/create-user 559-627, ghl/create-trial-user 630-698) -/

/-- The email-shape test of the regex `[^\s@]+@[^\s@]+\.[^\s@]+`
anchored on both sides: exactly one at-sign; nonempty whitespace-free
part before it; the part after it whitespace-free with a dot that is
neither its first nor its last character. -/
def emailOk (s : String) : Bool :=
  match s.toList.splitOn '@' with
  | [loc, rest] =>
      !loc.isEmpty && loc.all (fun c => !c.isWhitespace) &&
      rest.all (fun c => !c.isWhitespace) &&
      rest.tail.dropLast.contains '.'
  | _ => false

/-- The display-name computation
`(firstName + " " + lastName).trim() || userRecord.displayName || ''`
of the provisioning handlers. -/
def computeDisplayName (firstName lastName recordDN : Option String) : String :=
  let d := ((firstName.getD "") ++ " " ++ (lastName.getD "")).trim
  if d ≠ "" then d
  else if jsTruthy recordDN then recordDN.getD ""
  else ""

/-- Response of a provisioning handler: the 400 validation error, the
409 conflict carrying the existing uid, or the success body
`{uid, email, tempPassword?}`. -/
inductive ProvisionResponse where
  | badRequest (err : String)
  | conflict (err : String) (uid : String)
  | ok (uid : String) (email : String) (tempPassword : Option String)
deriving DecidableEq, Repr

/-- External writes a provisioning handler issues, in program order:
identity creations `(email, password)`, identity password updates
`(uid, password)`, custom-claims writes, profile writes. -/
structure ProvisionEffects where
  authCreates : List (String × String)
  authPasswordUpdates : List (String × String)
  claimsWrites : List (String × ClaimsMap)
  profileWrites : List ProfileWrite
deriving DecidableEq, Repr

/-- No external write issued. -/
def noEffects : ProvisionEffects := ⟨[], [], [], []⟩

/-- The `userData` object literal of the grant-admin and create-user
handlers (part_000 lines 321-346 and 480-505), fields in source order:
the always-present eight fields, then `firstName`/`lastName`/
`displayName` when truthy, then `tempPassword` + `passwordGeneratedAt`
when a password was generated or set, then `createdAt` on the
new-identity branch (`userRecord._generatedTempPassword` truthy). -/
def buildUserData (uid e userType accountType creationEndpoint createdBy : String)
    (now : Nat) (firstName lastName : Option String) (displayName : String)
    (effTemp genTemp : Option String) : List (String × FieldVal) :=
  [("uid", FieldVal.str uid), ("email", FieldVal.str e),
   ("userType", FieldVal.str userType), ("accountType", FieldVal.str accountType),
   ("creationEndpoint", FieldVal.str creationEndpoint),
   ("createdBy", FieldVal.str createdBy), ("accountStatus", FieldVal.str "Active"),
   ("updatedAt", FieldVal.ts now)]
  ++ (if jsTruthy firstName then [("firstName", FieldVal.str (firstName.getD ""))] else [])
  ++ (if jsTruthy lastName then [("lastName", FieldVal.str (lastName.getD ""))] else [])
  ++ (if displayName ≠ "" then [("displayName", FieldVal.str displayName)] else [])
  ++ (if jsTruthy effTemp then
        [("tempPassword", FieldVal.str (effTemp.getD "")), ("passwordGeneratedAt", FieldVal.ts now)]
      else [])
  ++ (if jsTruthy genTemp then [("createdAt", FieldVal.serverTs)] else [])

/-- The common tail of the grant-admin and create-user handlers after
the identity was found or created (part_000 lines 299-364 and 458-522):
`effectiveTempPassword = userRecord._generatedTempPassword || null`,
the password-rotation branch for pre-existing identities, the
unconditional claims write, the `userData` build, the merge-write of
the profile, and the success response.  `genTemp` is
`userRecord._generatedTempPassword` (absent on the found-identity
path), `recordDN` the identity record's display name, `preEffects` the
identity creation already issued. -/
def provisionTail (uid e : String) (recordDN genTemp : Option String)
    (tempPassword firstName lastName : Option String)
    (userType accountType creationEndpoint createdBy : String) (now : Nat)
    (preEffects : ProvisionEffects) : ProvisionResponse × ProvisionEffects :=
  let eff0 : Option String := if jsTruthy genTemp then genTemp else none
  let effTemp : Option String :=
    if !(jsTruthy eff0) && jsTruthy tempPassword then tempPassword else eff0
  let pwUpdates : List (String × String) :=
    if !(jsTruthy eff0) && jsTruthy tempPassword then [(uid, tempPassword.getD "")] else []
  let displayName := computeDisplayName firstName lastName recordDN
  let userData := buildUserData uid e userType accountType creationEndpoint createdBy now
      firstName lastName displayName effTemp genTemp
  (.ok uid e (if jsTruthy effTemp then effTemp else none),
   { preEffects with
       authPasswordUpdates := preEffects.authPasswordUpdates ++ pwUpdates,
       claimsWrites := preEffects.claimsWrites ++ [(uid, [("mustChangePassword", true)])],
       profileWrites := preEffects.profileWrites ++ [⟨uid, userData, true⟩] })

/-- The grant-admin handler, part_000 lines 257-373: validate the
email, find or create the identity (`newUid` the uid the provider
assigns on creation, `rand1`/`rand2` the rendered random draws), then
the common provisioning tail with role `admin` and provenance
`grant_admin`.  `adminDisplayName` is `req.adminDisplayName` attached
by the bearer guard. -/
def grantAdmin (auth : List AuthUser) (newUid rand1 rand2 : String) (now : Nat)
    (adminDisplayName email firstName lastName tempPassword : Option String) :
    ProvisionResponse × ProvisionEffects :=
  if !(jsTruthy email) then (.badRequest "Valid email is required", noEffects)
  else if !(emailOk (email.getD "")) then (.badRequest "Invalid email format", noEffects)
  else
    let e := email.getD ""
    let createdBy := if jsTruthy adminDisplayName then adminDisplayName.getD "" else "Admin"
    match getUserByEmail auth e with
    | some r =>
        provisionTail r.uid e r.displayName none tempPassword firstName lastName
          "admin" "Admin-Created" "grant_admin" createdBy now noEffects
    | none =>
        let generated :=
          if jsTruthy tempPassword then tempPassword.getD ""
          else generatedPassword rand1 rand2
        provisionTail newUid e none (some generated) tempPassword firstName lastName
          "admin" "Admin-Created" "grant_admin" createdBy now
          { noEffects with authCreates := [(e, generated)] }

/-- The create-user handler, part_000 lines 407-531: as grant-admin,
except an already-existing identity answers 409 Conflict with the
existing uid before any write, and the role and provenance are `user`
and `create_user`. -/
def createUser (auth : List AuthUser) (newUid rand1 rand2 : String) (now : Nat)
    (adminDisplayName email firstName lastName tempPassword : Option String) :
    ProvisionResponse × ProvisionEffects :=
  if !(jsTruthy email) then (.badRequest "Valid email is required", noEffects)
  else if !(emailOk (email.getD "")) then (.badRequest "Invalid email format", noEffects)
  else
    let e := email.getD ""
    match getUserByEmail auth e with
    | some r => (.conflict "User already exists with this email" r.uid, noEffects)
    | none =>
        let generated :=
          if jsTruthy tempPassword then tempPassword.getD ""
          else generatedPassword rand1 rand2
        provisionTail newUid e none (some generated) tempPassword firstName lastName
          "user" "Admin-Created" "create_user"
          (if jsTruthy adminDisplayName then adminDisplayName.getD "" else "Admin") now
          { noEffects with authCreates := [(e, generated)] }

/-- The `userData` object literal of the GHL provisioning handlers
(part_000 lines 600-615 and 671-686), fields in source order:
`tempPassword` and `passwordGeneratedAt` sit in the base object, names
are conditional, and `createdAt = serverTimestamp` is assigned
unconditionally. -/
def buildGhlUserData (uid e accountType creationEndpoint : String) (now : Nat)
    (generated : String) (firstName lastName : Option String) (displayName : String) :
    List (String × FieldVal) :=
  [("uid", FieldVal.str uid), ("email", FieldVal.str e),
   ("userType", FieldVal.str "user"), ("accountType", FieldVal.str accountType),
   ("creationEndpoint", FieldVal.str creationEndpoint),
   ("createdBy", FieldVal.str "GHL"), ("accountStatus", FieldVal.str "Active"),
   ("updatedAt", FieldVal.ts now), ("tempPassword", FieldVal.str generated),
   ("passwordGeneratedAt", FieldVal.ts now)]
  ++ (if jsTruthy firstName then [("firstName", FieldVal.str (firstName.getD ""))] else [])
  ++ (if jsTruthy lastName then [("lastName", FieldVal.str (lastName.getD ""))] else [])
  ++ (if displayName ≠ "" then [("displayName", FieldVal.str displayName)] else [])
  ++ [("createdAt", FieldVal.serverTs)]

/-- The common body of the two GHL provisioning handlers, which differ
only in `accountType` and `creationEndpoint`: validate, 409 on an
existing identity, otherwise create the identity with the generated
password, write the claim, and merge-write the profile. -/
def ghlCreateUserCore (accountType creationEndpoint : String) (auth : List AuthUser)
    (newUid rand1 rand2 : String) (now : Nat)
    (email firstName lastName tempPassword : Option String) :
    ProvisionResponse × ProvisionEffects :=
  if !(jsTruthy email) then (.badRequest "Valid email is required", noEffects)
  else if !(emailOk (email.getD "")) then (.badRequest "Invalid email format", noEffects)
  else
    let e := email.getD ""
    match getUserByEmail auth e with
    | some r => (.conflict "User already exists with this email" r.uid, noEffects)
    | none =>
        let generated :=
          if jsTruthy tempPassword then tempPassword.getD ""
          else generatedPassword rand1 rand2
        let displayName := computeDisplayName firstName lastName none
        let userData := buildGhlUserData newUid e accountType creationEndpoint now generated
            firstName lastName displayName
        (.ok newUid e (some generated),
         { authCreates := [(e, generated)],
           authPasswordUpdates := [],
           claimsWrites := [(newUid, [("mustChangePassword", true)])],
           profileWrites := [⟨newUid, userData, true⟩] })

/-- The ghl/create-user handler, part_000 lines 559-627. -/
def ghlCreateUser (auth : List AuthUser) (newUid rand1 rand2 : String) (now : Nat)
    (email firstName lastName tempPassword : Option String) :
    ProvisionResponse × ProvisionEffects :=
  ghlCreateUserCore "Premium" "ghl_create_user" auth newUid rand1 rand2 now
    email firstName lastName tempPassword

/-- The ghl/create-trial-user handler, part_000 lines 630-698. -/
def ghlCreateTrialUser (auth : List AuthUser) (newUid rand1 rand2 : String) (now : Nat)
    (email firstName lastName tempPassword : Option String) :
    ProvisionResponse × ProvisionEffects :=
  ghlCreateUserCore "Trial" "ghl_create_trial_user" auth newUid rand1 rand2 now
    email firstName lastName tempPassword

/-! ## Lifecycle transitions (make-inactive 701-732, ghl/make-inactive 735-766) -/

/-- Response of a status-transition handler. -/
inductive StatusResult where
  | badRequest (err : String)
  | notFound (err : String)
  | ok (uid : String) (accountStatus : String)
deriving DecidableEq, Repr

/-- The make-inactive handler, part_000 lines 701-732: requires a
truthy `uid` or `email`; resolves the email through the identity
provider when only it is given; merge-writes
`{accountStatus: 'Inactive', updatedAt: now}` and answers
`{uid, accountStatus: 'inactive'}`. -/
def makeInactive (auth : List AuthUser) (now : Nat) (uid email : Option String) :
    StatusResult × List ProfileWrite :=
  if !(jsTruthy uid) && !(jsTruthy email) then
    (.badRequest "uid or email is required", [])
  else if jsTruthy uid then
    (.ok (uid.getD "") "inactive",
     [⟨uid.getD "",
       [("accountStatus", FieldVal.str "Inactive"), ("updatedAt", FieldVal.ts now)], true⟩])
  else
    match getUserByEmail auth (email.getD "") with
    | some r =>
        (.ok r.uid "inactive",
         [⟨r.uid,
           [("accountStatus", FieldVal.str "Inactive"), ("updatedAt", FieldVal.ts now)], true⟩])
    | none => (.notFound "User not found for provided email", [])

/-- The ghl/make-inactive handler, part_000 lines 735-766, whose body
past the static-key guard is the same code as make-inactive. -/
def ghlMakeInactive (auth : List AuthUser) (now : Nat) (uid email : Option String) :
    StatusResult × List ProfileWrite :=
  if !(jsTruthy uid) && !(jsTruthy email) then
    (.badRequest "uid or email is required", [])
  else if jsTruthy uid then
    (.ok (uid.getD "") "inactive",
     [⟨uid.getD "",
       [("accountStatus", FieldVal.str "Inactive"), ("updatedAt", FieldVal.ts now)], true⟩])
  else
    match getUserByEmail auth (email.getD "") with
    | some r =>
        (.ok r.uid "inactive",
         [⟨r.uid,
           [("accountStatus", FieldVal.str "Inactive"), ("updatedAt", FieldVal.ts now)], true⟩])
    | none => (.notFound "User not found for provided email", [])

/-! ## Profile documents and merge writes (for the setStatus idempotence claim) -/

/-- A profile document as a partial map from field name to value. -/
def ProfileDoc := String → Option FieldVal

/-- Firestore `set(fields, {merge: true})` against one document:
fields of the write shadow the document's, every other field is kept. -/
def mergeWrite (fields : List (String × FieldVal)) (p : ProfileDoc) : ProfileDoc :=
  fun k =>
    match fields.lookup k with
    | some v => some v
    | none => p k

/-- The field object of the setStatus merge write, part_000 lines
722-725, with the status value as the spec's `setStatus` contract
parametrises it (`'Inactive'` in the make-inactive handlers). -/
def setStatusFields (status : String) (now : Nat) : List (String × FieldVal) :=
  [("accountStatus", FieldVal.str status), ("updatedAt", FieldVal.ts now)]

/-- The effect of one setStatus call on the target profile document. -/
def setStatusWrite (status : String) (now : Nat) (p : ProfileDoc) : ProfileDoc :=
  mergeWrite (setStatusFields status now) p

/-! ## Remove-password-change-requirement (part_000 lines 376-404) -/

/-- Response of the remove-password-change-requirement handler. -/
inductive RemoveClaimResult where
  | badRequest (err : String)
  | ok (message : String)
deriving DecidableEq, Repr

/-- The remove-password-change-requirement handler, part_000 lines
376-404: requires a truthy `uid`, then calls
`setCustomUserClaims(uid, {mustChangePassword: false})`. -/
def removePasswordChangeRequirement (st : ClaimsState) (uid : Option String) :
    RemoveClaimResult × ClaimsState :=
  if !(jsTruthy uid) then (.badRequest "User ID is required", st)
  else
    (.ok "Password change requirement removed",
     setCustomUserClaims st (uid.getD "") [("mustChangePassword", false)])

/-! ## Sample data for witness instantiations -/

/-- A sample pre-existing profile document holding one unrelated field. -/
def sampleProfile : ProfileDoc :=
  fun k => if k = "email" then some (FieldVal.str "a@b.c") else none

/-- A sample prior claims state where every identity carries an extra
claim besides mustChangePassword. -/
def sampleClaims : ClaimsState :=
  fun _ => [("admin", true), ("mustChangePassword", true)]

/-! ## Claim theorems -/

/-- C7 counterexample: a request carrying the key header with an empty
value, against an unconfigured server key, is answered 401, not the 500
ConfigurationError the claim requires for every request whose key
header is present while the expected key is unconfigured. -/
theorem apiKeyGuard_empty_header_cex :
    authenticateApiKey (some "") none = GuardOutcome.unauthorized ∧
    authenticateApiKey (some "") none ≠ GuardOutcome.configError := by
  decide

/-- C7 (amended): the static-key guard answers 401 whenever the
provided key is falsy (header absent or empty), 500 when a truthy key
is provided but the expected key is unconfigured or empty, 403 when
both are truthy and differ, and the guarded handler runs exactly when
both are truthy and equal. -/
theorem apiKeyGuard_outcomes (provided expected : Option String) :
    (jsTruthy provided = false →
      authenticateApiKey provided expected = GuardOutcome.unauthorized) ∧
    (jsTruthy provided = true → jsTruthy expected = false →
      authenticateApiKey provided expected = GuardOutcome.configError) ∧
    (jsTruthy provided = true → jsTruthy expected = true → provided ≠ expected →
      authenticateApiKey provided expected = GuardOutcome.forbidden) ∧
    (authenticateApiKey provided expected = GuardOutcome.handlerRuns ↔
      jsTruthy provided = true ∧ jsTruthy expected = true ∧ provided = expected) := by
  unfold authenticateApiKey
  by_cases hp : jsTruthy provided <;> by_cases he : jsTruthy expected <;>
    by_cases heq : provided = expected <;> simp [hp, he, heq]

/-- C9: a send-notification request missing the title or the body is
answered 400 with the literal error, before any document read or any
send attempt. -/
theorem sendNotification_missing_field_400 (store : List UserDoc) (b : NotifBody)
    (h : b.title = none ∨ b.body = none) :
    sendNotification store b =
      (NotifResponse.badRequest "Title and body are required", ⟨[], false, []⟩) := by
  unfold sendNotification
  rcases h with h | h <;> simp [h, jsTruthy]

/-- C9 witness: the concrete request with no title. -/
theorem sendNotification_missing_field_400_witness :
    sendNotification [] ⟨none, some "m", none, []⟩ =
      (NotifResponse.badRequest "Title and body are required", ⟨[], false, []⟩) :=
  sendNotification_missing_field_400 [] ⟨none, some "m", none, []⟩ (Or.inl rfl)

/-- C2: in the targetUsers branch, an existing profile with no fcmToken
field contributes the undefined token to the dispatch list, so a send
is attempted on its behalf: the filter drops only null (missing
documents), unlike the targetType branch which also drops undefined. -/
theorem sendNotification_undefined_token_attempted :
    sendNotification [⟨"a", "user", JsVal.jsUndefined⟩] ⟨some "t", some "m", none, ["a"]⟩ =
      (NotifResponse.sent 1, ⟨["a"], false, [JsVal.jsUndefined]⟩) ∧
    sendNotification [⟨"a", "user", JsVal.jsUndefined⟩] ⟨some "t", some "m", none, []⟩ =
      (NotifResponse.noRecipients "No users have enabled notifications for the specified criteria",
        ⟨[], true, []⟩) := by
  constructor <;> rfl

/-- C10: the remove-password-change-requirement handler replaces the
identity's entire custom-claims map by exactly the singleton
mustChangePassword = false, for every prior claims state. -/
theorem removeClaim_replaces_whole_map (st : ClaimsState) (uid : String) (h : uid ≠ "") :
    (removePasswordChangeRequirement st (some uid)).2 uid =
      [("mustChangePassword", false)] := by
  unfold removePasswordChangeRequirement
  simp [jsTruthy, h, setCustomUserClaims]

/-- C10 witness: a prior state carrying an unrelated admin claim is
wholly replaced. -/
theorem removeClaim_replaces_whole_map_witness :
    (removePasswordChangeRequirement sampleClaims (some "u1")).2 "u1" =
      [("mustChangePassword", false)] :=
  removeClaim_replaces_whole_map sampleClaims "u1" (by decide)

/-- C8: the setStatus merge write is idempotent: writing the same
status twice leaves the same accountStatus as writing it once, and
neither the once- nor the twice-written document differs from the
original on any field other than accountStatus and updatedAt. -/
theorem setStatus_idempotent (p : ProfileDoc) (status : String) (t1 t2 : Nat) (k : String)
    (h1 : k ≠ "accountStatus") (h2 : k ≠ "updatedAt") :
    setStatusWrite status t2 (setStatusWrite status t1 p) "accountStatus" =
      setStatusWrite status t1 p "accountStatus" ∧
    setStatusWrite status t2 (setStatusWrite status t1 p) k = p k ∧
    setStatusWrite status t1 p k = p k := by
  have e1 : (k == "accountStatus") = false := beq_eq_false_iff_ne.mpr h1
  have e2 : (k == "updatedAt") = false := beq_eq_false_iff_ne.mpr h2
  unfold setStatusWrite mergeWrite setStatusFields
  simp [List.lookup, e1, e2]

/-- C8 witness: two Inactive writes at instants 1 and 2 over a document
holding an email field. -/
theorem setStatus_idempotent_witness :
    setStatusWrite "Inactive" 2 (setStatusWrite "Inactive" 1 sampleProfile) "accountStatus" =
      setStatusWrite "Inactive" 1 sampleProfile "accountStatus" ∧
    setStatusWrite "Inactive" 2 (setStatusWrite "Inactive" 1 sampleProfile) "email" =
      sampleProfile "email" ∧
    setStatusWrite "Inactive" 1 sampleProfile "email" = sampleProfile "email" :=
  setStatus_idempotent sampleProfile "Inactive" 1 2 "email" (by decide) (by decide)

/-- C1 counterexample: a successful make-inactive call writes
accountStatus = "Inactive" to the profile but answers
accountStatus = "inactive"; the response value is not the value that
was written. -/
theorem makeInactive_response_case_cex :
    (makeInactive [] 0 (some "u1") none).1 = StatusResult.ok "u1" "inactive" ∧
    (makeInactive [] 0 (some "u1") none).2 =
      [⟨"u1", [("accountStatus", FieldVal.str "Inactive"), ("updatedAt", FieldVal.ts 0)],
        true⟩] ∧
    ("inactive" : String) ≠ "Inactive" := by
  refine ⟨rfl, rfl, by decide⟩

/-- Case analysis of the make-inactive handler: it answers 400 or 404
with no write, or succeeds with the lowercase status and the one merge
write. -/
theorem makeInactive_cases (auth : List AuthUser) (now : Nat) (uid email : Option String) :
    (∃ err, makeInactive auth now uid email = (StatusResult.badRequest err, [])) ∨
    (∃ err, makeInactive auth now uid email = (StatusResult.notFound err, [])) ∨
    (∃ u, makeInactive auth now uid email =
      (StatusResult.ok u "inactive",
       [⟨u, [("accountStatus", FieldVal.str "Inactive"), ("updatedAt", FieldVal.ts now)],
         true⟩])) := by
  unfold makeInactive
  split
  · exact Or.inl ⟨_, rfl⟩
  · split
    · exact Or.inr (Or.inr ⟨_, rfl⟩)
    · split
      · exact Or.inr (Or.inr ⟨_, rfl⟩)
      · exact Or.inr (Or.inl ⟨_, rfl⟩)

/-- C1 (amended): every successful make-inactive call (either handler)
issues exactly one profile write of exactly the two fields
accountStatus = "Inactive" and updatedAt = now with merge semantics to
the resolved uid, and answers that uid with the lowercase literal
"inactive", which differs in case from the written status; the GHL
handler behaves identically. -/
theorem makeInactive_success_shape (auth : List AuthUser) (now : Nat)
    (uid email : Option String) (u s : String)
    (h : (makeInactive auth now uid email).1 = StatusResult.ok u s) :
    s = "inactive" ∧
    (makeInactive auth now uid email).2 =
      [⟨u, [("accountStatus", FieldVal.str "Inactive"), ("updatedAt", FieldVal.ts now)],
        true⟩] ∧
    ghlMakeInactive auth now uid email = makeInactive auth now uid email := by
  refine ⟨?_, ?_, rfl⟩ <;>
    rcases makeInactive_cases auth now uid email with ⟨err, heq⟩ | ⟨err, heq⟩ | ⟨u₀, heq⟩ <;>
      rw [heq] at h <;> simp_all

/-- C1 witness: the concrete call by uid. -/
theorem makeInactive_success_shape_witness :
    ("inactive" : String) = "inactive" ∧
    (makeInactive [] 0 (some "u2") none).2 =
      [⟨"u2", [("accountStatus", FieldVal.str "Inactive"), ("updatedAt", FieldVal.ts 0)],
        true⟩] ∧
    ghlMakeInactive [] 0 (some "u2") none = makeInactive [] 0 (some "u2") none :=
  makeInactive_success_shape [] 0 (some "u2") none "u2" "inactive" rfl

/-- The claims-writes list of the common provisioning tail: exactly one
write of the singleton mustChangePassword = true map appended to the
pre-existing effects. -/
theorem provisionTail_claimsWrites (uid e : String)
    (recordDN genTemp tempPassword firstName lastName : Option String)
    (uT aT cE cB : String) (now : Nat) (pre : ProvisionEffects) :
    (provisionTail uid e recordDN genTemp tempPassword firstName lastName
        uT aT cE cB now pre).2.claimsWrites =
      pre.claimsWrites ++ [(uid, [("mustChangePassword", true)])] := rfl

/-- C4: a provisioning call of any of the allowExisting = false
variants on an email whose identity already exists answers 409 Conflict
with the existing uid, with zero identity-provider writes, zero claims
writes and zero profile writes. -/
theorem provision_conflict_zero_writes (auth : List AuthUser) (newUid rand1 rand2 : String)
    (now : Nat) (adminDisplayName email firstName lastName tempPassword : Option String)
    (r : AuthUser)
    (hmail : jsTruthy email = true) (hfmt : emailOk (email.getD "") = true)
    (hfound : getUserByEmail auth (email.getD "") = some r) :
    createUser auth newUid rand1 rand2 now adminDisplayName email firstName lastName
        tempPassword =
      (ProvisionResponse.conflict "User already exists with this email" r.uid, noEffects) ∧
    ghlCreateUser auth newUid rand1 rand2 now email firstName lastName tempPassword =
      (ProvisionResponse.conflict "User already exists with this email" r.uid, noEffects) ∧
    ghlCreateTrialUser auth newUid rand1 rand2 now email firstName lastName tempPassword =
      (ProvisionResponse.conflict "User already exists with this email" r.uid, noEffects) := by
  unfold createUser ghlCreateUser ghlCreateTrialUser ghlCreateUserCore
  simp [hmail, hfmt, hfound]

/-- C4 witness: the three handlers at a store already holding the
email. -/
theorem provision_conflict_zero_writes_witness :
    createUser [⟨"u9", "a@b.c", none⟩] "n1" "0.x" "0.y" 0 none (some "a@b.c") none none none =
      (ProvisionResponse.conflict "User already exists with this email"
        (AuthUser.mk "u9" "a@b.c" none).uid, noEffects) ∧
    ghlCreateUser [⟨"u9", "a@b.c", none⟩] "n1" "0.x" "0.y" 0 (some "a@b.c") none none none =
      (ProvisionResponse.conflict "User already exists with this email"
        (AuthUser.mk "u9" "a@b.c" none).uid, noEffects) ∧
    ghlCreateTrialUser [⟨"u9", "a@b.c", none⟩] "n1" "0.x" "0.y" 0 (some "a@b.c") none none
        none =
      (ProvisionResponse.conflict "User already exists with this email"
        (AuthUser.mk "u9" "a@b.c" none).uid, noEffects) :=
  provision_conflict_zero_writes [⟨"u9", "a@b.c", none⟩] "n1" "0.x" "0.y" 0 none
    (some "a@b.c") none none none ⟨"u9", "a@b.c", none⟩ (by decide) (by decide) (by decide)

/-- Every claims write the grant-admin handler issues carries the
singleton mustChangePassword = true map. -/
theorem grantAdmin_claims_mem (auth : List AuthUser) (newUid rand1 rand2 : String)
    (now : Nat) (adminDisplayName email firstName lastName tempPassword : Option String)
    (u : String) (m : ClaimsMap)
    (h : (u, m) ∈ (grantAdmin auth newUid rand1 rand2 now adminDisplayName email firstName
            lastName tempPassword).2.claimsWrites) :
    m = [("mustChangePassword", true)] := by
  unfold grantAdmin at h
  split at h
  · simp [noEffects] at h
  · split at h
    · simp [noEffects] at h
    · rcases hfind : getUserByEmail auth (email.getD "") with _ | r <;>
        simp only [hfind, provisionTail_claimsWrites] at h <;>
        simp [noEffects] at h
      · exact h.2
      · exact h.2

/-- Every claims write the create-user handler issues carries the
singleton mustChangePassword = true map. -/
theorem createUser_claims_mem (auth : List AuthUser) (newUid rand1 rand2 : String)
    (now : Nat) (adminDisplayName email firstName lastName tempPassword : Option String)
    (u : String) (m : ClaimsMap)
    (h : (u, m) ∈ (createUser auth newUid rand1 rand2 now adminDisplayName email firstName
            lastName tempPassword).2.claimsWrites) :
    m = [("mustChangePassword", true)] := by
  unfold createUser at h
  split at h
  · simp [noEffects] at h
  · split at h
    · simp [noEffects] at h
    · rcases hfind : getUserByEmail auth (email.getD "") with _ | r <;>
        simp only [hfind, provisionTail_claimsWrites] at h
      · simp [noEffects] at h
        exact h.2
      · simp [noEffects] at h

/-- Every claims write the GHL provisioning handlers issue carries the
singleton mustChangePassword = true map. -/
theorem ghlCore_claims_mem (aT cE : String) (auth : List AuthUser)
    (newUid rand1 rand2 : String) (now : Nat)
    (email firstName lastName tempPassword : Option String)
    (u : String) (m : ClaimsMap)
    (h : (u, m) ∈ (ghlCreateUserCore aT cE auth newUid rand1 rand2 now email firstName
            lastName tempPassword).2.claimsWrites) :
    m = [("mustChangePassword", true)] := by
  unfold ghlCreateUserCore at h
  split at h
  · simp [noEffects] at h
  · split at h
    · simp [noEffects] at h
    · rcases hfind : getUserByEmail auth (email.getD "") with _ | r <;>
        simp only [hfind] at h
      · simp at h
        exact h.2
      · simp [noEffects] at h

/-- C6: every claims write any provisioning handler issues (grant-admin,
create-user, ghl/create-user or ghl/create-trial-user) sets the
identity's custom-claims map to exactly the singleton
mustChangePassword = true, and since setCustomUserClaims replaces the
full map, no prior claim survives under any prior claims state. -/
theorem provision_claims_replaced_exact (auth : List AuthUser) (newUid rand1 rand2 : String)
    (now : Nat) (adminDisplayName email firstName lastName tempPassword : Option String)
    (u : String) (m : ClaimsMap)
    (h : (u, m) ∈ (grantAdmin auth newUid rand1 rand2 now adminDisplayName email firstName
            lastName tempPassword).2.claimsWrites ∨
         (u, m) ∈ (createUser auth newUid rand1 rand2 now adminDisplayName email firstName
            lastName tempPassword).2.claimsWrites ∨
         (u, m) ∈ (ghlCreateUser auth newUid rand1 rand2 now email firstName lastName
            tempPassword).2.claimsWrites ∨
         (u, m) ∈ (ghlCreateTrialUser auth newUid rand1 rand2 now email firstName lastName
            tempPassword).2.claimsWrites) :
    m = [("mustChangePassword", true)] ∧
    ∀ st : ClaimsState, setCustomUserClaims st u m u = [("mustChangePassword", true)] := by
  have hm : m = [("mustChangePassword", true)] := by
    rcases h with h | h | h | h
    · exact grantAdmin_claims_mem auth newUid rand1 rand2 now adminDisplayName email
        firstName lastName tempPassword u m h
    · exact createUser_claims_mem auth newUid rand1 rand2 now adminDisplayName email
        firstName lastName tempPassword u m h
    · exact ghlCore_claims_mem "Premium" "ghl_create_user" auth newUid rand1 rand2 now
        email firstName lastName tempPassword u m h
    · exact ghlCore_claims_mem "Trial" "ghl_create_trial_user" auth newUid rand1 rand2 now
        email firstName lastName tempPassword u m h
  refine ⟨hm, fun st => ?_⟩
  simp [setCustomUserClaims, hm]

/-- C6 witness: the grant-admin claims write on an existing identity. -/
theorem provision_claims_replaced_exact_witness :
    ([("mustChangePassword", true)] : ClaimsMap) = [("mustChangePassword", true)] ∧
    ∀ st : ClaimsState,
      setCustomUserClaims st "u9" [("mustChangePassword", true)] "u9" =
        [("mustChangePassword", true)] :=
  provision_claims_replaced_exact [⟨"u9", "a@b.c", none⟩] "n1" "0.x" "0.y" 0 none
    (some "a@b.c") none none none "u9" [("mustChangePassword", true)]
    (Or.inl (by decide))

/-- The characters of a sliced string are the dropped suffix of the
original's characters. -/
theorem jsSliceNeg_toList (n : Nat) (s : String) :
    (jsSliceNeg n s).toList = s.toList.drop (s.toList.length - n) := rfl

/-- The characters of a toString(36) rendering with fractional digits
ds. -/
theorem toList36 (ds : List Char) : ("0." ++ String.mk ds).toList = '0' :: '.' :: ds := rfl

/-- Dropping two more characters steps over a two-element prefix. -/
theorem drop_two_cons (a b : Char) (l : List Char) (k : Nat) :
    List.drop (k + 2) (a :: b :: l) = List.drop k l := rfl

/-- Every base-36 digit is an alphanumeric character. -/
theorem base36_isAlphanum (c : Char) (h : isBase36Digit c = true) : c.isAlphanum = true := by
  have hall : ∀ x ∈ base36Digits, x.isAlphanum = true := by decide
  have hmem : c ∈ base36Digits := by simpa [isBase36Digit] using h
  exact hall c hmem

/-- Slicing the last n characters of a rendering with at least n
fractional digits lands entirely inside the digits. -/
theorem jsSliceNeg_long (n : Nat) (ds : List Char) (hl : n ≤ ds.length) :
    (jsSliceNeg n ("0." ++ String.mk ds)).toList = ds.drop (ds.length - n) := by
  rw [jsSliceNeg_toList, toList36]
  have h2 : ('0' :: '.' :: ds).length - n = (ds.length - n) + 2 := by
    simp only [List.length_cons]
    omega
  rw [h2, drop_two_cons]

/-- C3 counterexample: Math.random() = 0.5 renders to "0.i", a
possible toString(36) output, and the generated password is then
"0.i0.i": 6 characters containing dots, not a 12-character
alphanumeric string. -/
theorem generatedPassword_short_draw_cex :
    validToString36 "0.i" ∧ generatedPassword "0.i" "0.i" = "0.i0.i" ∧
    ¬ ((generatedPassword "0.i" "0.i").length = 12 ∧
       ∀ c ∈ (generatedPassword "0.i" "0.i").toList, c.isAlphanum = true) := by
  refine ⟨Or.inr ⟨['i'], by decide, by decide, by decide⟩, by decide, by decide⟩

/-- C3 (amended): whenever the two random draws render with at least 8
and 4 fractional base-36 digits respectively — the typical case — the
generated temporary password has exactly 12 characters, all
alphanumeric; for shorter renderings it is shorter and can contain the
"0." prefix characters. -/
theorem generatedPassword_typical_shape (r1 r2 : String) (ds1 ds2 : List Char)
    (h1 : r1 = "0." ++ String.mk ds1) (h2 : r2 = "0." ++ String.mk ds2)
    (hd1 : ∀ c ∈ ds1, isBase36Digit c = true) (hd2 : ∀ c ∈ ds2, isBase36Digit c = true)
    (hl1 : 8 ≤ ds1.length) (hl2 : 4 ≤ ds2.length) :
    (generatedPassword r1 r2).length = 12 ∧
    ∀ c ∈ (generatedPassword r1 r2).toList, c.isAlphanum = true := by
  subst h1 h2
  have etl : (generatedPassword ("0." ++ String.mk ds1) ("0." ++ String.mk ds2)).toList =
      ds1.drop (ds1.length - 8) ++ ds2.drop (ds2.length - 4) := by
    unfold generatedPassword
    have ha : ((jsSliceNeg 8 ("0." ++ String.mk ds1)) ++
        (jsSliceNeg 4 ("0." ++ String.mk ds2))).toList =
        (jsSliceNeg 8 ("0." ++ String.mk ds1)).toList ++
        (jsSliceNeg 4 ("0." ++ String.mk ds2)).toList := String.data_append _ _
    rw [ha, jsSliceNeg_long 8 ds1 hl1, jsSliceNeg_long 4 ds2 hl2]
  constructor
  · have hlen : (generatedPassword ("0." ++ String.mk ds1) ("0." ++ String.mk ds2)).length =
        (generatedPassword ("0." ++ String.mk ds1) ("0." ++ String.mk ds2)).toList.length :=
      rfl
    rw [hlen, etl]
    simp only [List.length_append, List.length_drop]
    omega
  · intro c hc
    rw [etl] at hc
    rcases List.mem_append.mp hc with hc | hc
    · exact base36_isAlphanum c (hd1 c (List.drop_subset _ _ hc))
    · exact base36_isAlphanum c (hd2 c (List.drop_subset _ _ hc))

/-- C3 witness: two typical draws with 10 and 5 fractional digits. -/
theorem generatedPassword_typical_shape_witness :
    (generatedPassword "0.abcdefghij" "0.wxyz5").length = 12 ∧
    ∀ c ∈ (generatedPassword "0.abcdefghij" "0.wxyz5").toList, c.isAlphanum = true :=
  generatedPassword_typical_shape "0.abcdefghij" "0.wxyz5"
    ['a', 'b', 'c', 'd', 'e', 'f', 'g', 'h', 'i', 'j'] ['w', 'x', 'y', 'z', '5']
    (by decide) (by decide) (by decide) (by decide) (by decide) (by decide)

/-- A string with no characters is the empty string. -/
theorem string_eq_empty_of_data (s : String) (h : s.data = []) : s = "" := by
  cases s
  simp_all

/-- The last-n-characters slice of a nonempty string is nonempty. -/
theorem jsSliceNeg_ne_empty (n : Nat) (s : String) (hn : 0 < n) (hs : s ≠ "") :
    jsSliceNeg n s ≠ "" := by
  intro h
  apply hs
  have hd : s.toList.drop (s.toList.length - n) = [] := congrArg String.toList h
  have hlen : s.toList.length ≤ s.toList.length - n := List.drop_eq_nil_iff.mp hd
  have h0 : s.toList.length = 0 := by omega
  exact string_eq_empty_of_data s (List.length_eq_zero.mp h0)

/-- A generated password from a nonempty first draw is nonempty. -/
theorem generatedPassword_ne_empty (r1 r2 : String) (h : r1 ≠ "") :
    generatedPassword r1 r2 ≠ "" := by
  intro he
  apply jsSliceNeg_ne_empty 8 r1 (by omega) h
  have hd := congrArg String.data he
  unfold generatedPassword at hd
  rw [String.data_append] at hd
  exact string_eq_empty_of_data _ (List.append_eq_nil.mp hd).1

/-- The effective password on the new-identity branch — the caller's
truthy tempPassword, else the generated password — is nonempty when
the first draw's rendering is. -/
theorem generated_ne_empty (rand1 rand2 : String) (tp : Option String) (hr : rand1 ≠ "") :
    (if jsTruthy tp = true then tp.getD "" else generatedPassword rand1 rand2) ≠ "" := by
  by_cases ht : jsTruthy tp
  · cases tp with
    | none => simp [jsTruthy] at ht
    | some s =>
        have : s ≠ "" := by simpa [jsTruthy] using ht
        simpa [ht] using this
  · rw [if_neg ht]
    exact generatedPassword_ne_empty rand1 rand2 hr

/-- The userData of the admin provisioning handlers contains a
createdAt field exactly when the identity was created in this call
(the generated-password marker is truthy). -/
theorem createdAt_mem_buildUserData (uid e uT aT cE cB : String) (now : Nat)
    (fn ln : Option String) (dn : String) (effTemp genTemp : Option String) :
    ((∃ v, ("createdAt", v) ∈ buildUserData uid e uT aT cE cB now fn ln dn effTemp genTemp) ↔
      jsTruthy genTemp = true) := by
  unfold buildUserData
  by_cases hh1 : jsTruthy fn <;> by_cases hh2 : jsTruthy ln <;> by_cases hh3 : dn = "" <;>
    by_cases hh4 : jsTruthy effTemp <;> by_cases hh5 : jsTruthy genTemp <;>
      simp [hh1, hh2, hh3, hh4, hh5]

/-- The one profile write of the provisioning tail contains createdAt
exactly when the new-identity marker is truthy. -/
theorem provisionTail_profileWrites_createdAt (uid e : String)
    (recordDN genTemp tempPassword firstName lastName : Option String)
    (uT aT cE cB : String) (now : Nat) (pre : ProvisionEffects)
    (hpre : pre.profileWrites = []) (w : ProfileWrite)
    (hw : w ∈ (provisionTail uid e recordDN genTemp tempPassword firstName lastName
        uT aT cE cB now pre).2.profileWrites) :
    ((∃ v, ("createdAt", v) ∈ w.fields) ↔ jsTruthy genTemp = true) := by
  unfold provisionTail at hw
  simp only [hpre, List.nil_append] at hw
  simp only [List.mem_singleton] at hw
  subst hw
  exact createdAt_mem_buildUserData _ _ _ _ _ _ _ _ _ _ _ _

/-- The grant-admin profile write contains createdAt exactly when the
identity lookup missed. -/
theorem grantAdmin_createdAt (auth : List AuthUser) (newUid rand1 rand2 : String)
    (now : Nat) (adminDisplayName email firstName lastName tempPassword : Option String)
    (hr : rand1 ≠ "") (w : ProfileWrite)
    (hw : w ∈ (grantAdmin auth newUid rand1 rand2 now adminDisplayName email firstName
        lastName tempPassword).2.profileWrites) :
    ((∃ v, ("createdAt", v) ∈ w.fields) ↔ getUserByEmail auth (email.getD "") = none) := by
  unfold grantAdmin at hw
  split at hw
  · simp [noEffects] at hw
  · split at hw
    · simp [noEffects] at hw
    · rcases hfind : getUserByEmail auth (email.getD "") with _ | r <;>
        simp only [hfind] at hw
      · have hiff := provisionTail_profileWrites_createdAt _ _ _ _ _ _ _ _ _ _ _ _ _ rfl w hw
        have hg : jsTruthy (some (if jsTruthy tempPassword = true then tempPassword.getD ""
            else generatedPassword rand1 rand2)) = true := by
          simpa [jsTruthy] using generated_ne_empty rand1 rand2 tempPassword hr
        rw [hiff]
        simp [hg]
      · have hiff := provisionTail_profileWrites_createdAt _ _ _ _ _ _ _ _ _ _ _ _ _ rfl w hw
        rw [hiff]
        simp [jsTruthy]

/-- The create-user profile write contains createdAt exactly when the
identity lookup missed (a hit answers 409 with no write). -/
theorem createUser_createdAt (auth : List AuthUser) (newUid rand1 rand2 : String)
    (now : Nat) (adminDisplayName email firstName lastName tempPassword : Option String)
    (hr : rand1 ≠ "") (w : ProfileWrite)
    (hw : w ∈ (createUser auth newUid rand1 rand2 now adminDisplayName email firstName
        lastName tempPassword).2.profileWrites) :
    ((∃ v, ("createdAt", v) ∈ w.fields) ↔ getUserByEmail auth (email.getD "") = none) := by
  unfold createUser at hw
  split at hw
  · simp [noEffects] at hw
  · split at hw
    · simp [noEffects] at hw
    · rcases hfind : getUserByEmail auth (email.getD "") with _ | r <;>
        simp only [hfind] at hw
      · have hiff := provisionTail_profileWrites_createdAt _ _ _ _ _ _ _ _ _ _ _ _ _ rfl w hw
        have hg : jsTruthy (some (if jsTruthy tempPassword = true then tempPassword.getD ""
            else generatedPassword rand1 rand2)) = true := by
          simpa [jsTruthy] using generated_ne_empty rand1 rand2 tempPassword hr
        rw [hiff]
        simp [hg]
      · simp [noEffects] at hw

/-- The GHL provisioning profile write (issued only when the lookup
missed) always contains createdAt. -/
theorem ghlCore_createdAt (aT cE : String) (auth : List AuthUser)
    (newUid rand1 rand2 : String) (now : Nat)
    (email firstName lastName tempPassword : Option String) (w : ProfileWrite)
    (hw : w ∈ (ghlCreateUserCore aT cE auth newUid rand1 rand2 now email firstName
        lastName tempPassword).2.profileWrites) :
    ((∃ v, ("createdAt", v) ∈ w.fields) ↔ getUserByEmail auth (email.getD "") = none) := by
  unfold ghlCreateUserCore at hw
  split at hw
  · simp [noEffects] at hw
  · split at hw
    · simp [noEffects] at hw
    · rcases hfind : getUserByEmail auth (email.getD "") with _ | r <;>
        simp only [hfind] at hw
      · simp only [List.mem_singleton] at hw
        subst hw
        simp [buildGhlUserData]
      · simp [noEffects] at hw

/-- C5: in every provisioning call whose first random draw renders
nonempty (every real toString(36) output is), a profile write contains
the createdAt field exactly when the identity lookup missed — so
provisioning a pre-existing identity never writes createdAt. -/
theorem provision_createdAt_iff_new_identity (auth : List AuthUser)
    (newUid rand1 rand2 : String) (now : Nat)
    (adminDisplayName email firstName lastName tempPassword : Option String)
    (hr : rand1 ≠ "") :
    (∀ w ∈ (grantAdmin auth newUid rand1 rand2 now adminDisplayName email firstName
        lastName tempPassword).2.profileWrites,
      ((∃ v, ("createdAt", v) ∈ w.fields) ↔ getUserByEmail auth (email.getD "") = none)) ∧
    (∀ w ∈ (createUser auth newUid rand1 rand2 now adminDisplayName email firstName
        lastName tempPassword).2.profileWrites,
      ((∃ v, ("createdAt", v) ∈ w.fields) ↔ getUserByEmail auth (email.getD "") = none)) ∧
    (∀ w ∈ (ghlCreateUser auth newUid rand1 rand2 now email firstName lastName
        tempPassword).2.profileWrites,
      ((∃ v, ("createdAt", v) ∈ w.fields) ↔ getUserByEmail auth (email.getD "") = none)) ∧
    (∀ w ∈ (ghlCreateTrialUser auth newUid rand1 rand2 now email firstName lastName
        tempPassword).2.profileWrites,
      ((∃ v, ("createdAt", v) ∈ w.fields) ↔ getUserByEmail auth (email.getD "") = none)) :=
  ⟨fun w hw => grantAdmin_createdAt auth newUid rand1 rand2 now adminDisplayName email
      firstName lastName tempPassword hr w hw,
   fun w hw => createUser_createdAt auth newUid rand1 rand2 now adminDisplayName email
      firstName lastName tempPassword hr w hw,
   fun w hw => ghlCore_createdAt "Premium" "ghl_create_user" auth newUid rand1 rand2 now
      email firstName lastName tempPassword w hw,
   fun w hw => ghlCore_createdAt "Trial" "ghl_create_trial_user" auth newUid rand1 rand2 now
      email firstName lastName tempPassword w hw⟩

/-- C5 witness: provisioning against an empty identity store. -/
theorem provision_createdAt_iff_new_identity_witness :
    (∀ w ∈ (grantAdmin [] "n1" "0.x" "0.y" 0 none (some "a@b.c") none none
        none).2.profileWrites,
      ((∃ v, ("createdAt", v) ∈ w.fields) ↔
        getUserByEmail [] ((some "a@b.c").getD "") = none)) ∧
    (∀ w ∈ (createUser [] "n1" "0.x" "0.y" 0 none (some "a@b.c") none none
        none).2.profileWrites,
      ((∃ v, ("createdAt", v) ∈ w.fields) ↔
        getUserByEmail [] ((some "a@b.c").getD "") = none)) ∧
    (∀ w ∈ (ghlCreateUser [] "n1" "0.x" "0.y" 0 (some "a@b.c") none none
        none).2.profileWrites,
      ((∃ v, ("createdAt", v) ∈ w.fields) ↔
        getUserByEmail [] ((some "a@b.c").getD "") = none)) ∧
    (∀ w ∈ (ghlCreateTrialUser [] "n1" "0.x" "0.y" 0 (some "a@b.c") none none
        none).2.profileWrites,
      ((∃ v, ("createdAt", v) ∈ w.fields) ↔
        getUserByEmail [] ((some "a@b.c").getD "") = none)) :=
  provision_createdAt_iff_new_identity [] "n1" "0.x" "0.y" 0 none (some "a@b.c") none none
    none (by decide)
